import Mathlib

/-!
Verification of the PostgreSQL credential-reset workflow
(`src/setup/postgres-reset.py`) against its natural-language specification.

The script is embedded shallowly: every externally visible effect (file
system mutation, service control, database connections) is made explicit.
Failure injection is modelled by boolean oracles in an `Env` record: each
flag records whether the corresponding side-effecting operation (a file
copy, a service-manager command, a connection or SQL statement) succeeds
on this run.  `run_command` in the source catches every exception and
returns a boolean, so service control is total and boolean-valued here;
file writes either replace the whole content or leave it untouched, which
mirrors the single buffered `f.write(...)` call in the source.
-/

namespace PgReset

/-- Result of `platform.system().lower()` in the source. -/
inductive Platform
  | windows
  | linux
  | darwin
  | other
deriving DecidableEq, Repr

/-- The Windows service-name candidates probed by `find_postgres_service`. -/
def windowsServices : List String :=
  ["postgresql-x64-14", "postgresql-x64-15", "postgresql-x64-16", "PostgreSQL"]

/-- `find_postgres_service`: on Windows, probe the candidate list with
`sc query` (modelled by the oracle `scQueryOk`) and return the first hit;
on linux and darwin return the fixed name with no probe; otherwise `none`. -/
def find_postgres_service (p : Platform) (scQueryOk : String → Bool) : Option String :=
  match p with
  | Platform.windows => windowsServices.find? scQueryOk
  | Platform.linux => some "postgresql"
  | Platform.darwin => some "postgresql"
  | Platform.other => none

/-- The data-directory candidates probed by `find_postgres_data_dir`,
in source order per platform. -/
def commonPaths (p : Platform) : List String :=
  match p with
  | Platform.windows =>
      ["C:\\Program Files\\PostgreSQL\\14\\data",
       "C:\\Program Files\\PostgreSQL\\15\\data",
       "C:\\Program Files\\PostgreSQL\\16\\data",
       "C:\\PostgreSQL\\data"]
  | Platform.linux =>
      ["/var/lib/postgresql/data",
       "/var/lib/pgsql/data",
       "/usr/local/var/postgres"]
  | Platform.darwin =>
      ["/usr/local/var/postgres",
       "/opt/homebrew/var/postgres",
       "/Library/PostgreSQL/14/data",
       "/Library/PostgreSQL/15/data"]
  | Platform.other => []

/-- `find_postgres_data_dir`: first candidate path that exists
(`os.path.exists` modelled by the oracle `pathOk`), else `none`. -/
def find_postgres_data_dir (p : Platform) (pathOk : String → Bool) : Option String :=
  (commonPaths p).find? pathOk

/-- The relaxed (`trust`) template written by `reset_postgres_auth`,
byte-for-byte the `trust_config` string of the source. -/
def trust_config : String :=
  "# TYPE  DATABASE        USER            ADDRESS                 METHOD\n" ++
  "# Allow local connections with trust (for reset)\n" ++
  "local   all             all                                     trust\n" ++
  "host    all             all             127.0.0.1/32            trust\n" ++
  "host    all             all             ::1/128                 trust\n"

/-- The secure (`md5`) template written by `create_secure_pg_hba`,
byte-for-byte the `secure_config` string of the source. -/
def secure_config : String :=
  "# TYPE  DATABASE        USER            ADDRESS                 METHOD\n" ++
  "# Local connections\n" ++
  "local   all             postgres                                md5\n" ++
  "local   all             all                                     md5\n" ++
  "\n" ++
  "# IPv4 local connections:\n" ++
  "host    all             postgres        127.0.0.1/32            md5\n" ++
  "host    all             all             127.0.0.1/32            md5\n" ++
  "\n" ++
  "# IPv6 local connections:\n" ++
  "host    all             postgres        ::1/128                 md5\n" ++
  "host    all             all             ::1/128                 md5\n"

/-- Split a character list at every occurrence of the separator `c`. -/
def splitOnChar (c : Char) : List Char → List (List Char)
  | [] => [[]]
  | x :: xs =>
      let r := splitOnChar c xs
      if x = c then [] :: r
      else
        match r with
        | [] => [[x]]
        | h :: t => (x :: h) :: t

/-- Parse a pg_hba-style file into its records: split into lines, drop
comment lines (starting with the hash character) and blank lines, and
split each remaining line into whitespace-separated tokens. -/
def hbaRecords (s : String) : List (List String) :=
  (splitOnChar (Char.ofNat 10) s.data).filterMap (fun line =>
    match line with
    | '#' :: _ => none
    | _ =>
        let toks := (splitOnChar ' ' line).filter (fun t => t ≠ [])
        if toks = [] then none else some (toks.map String.mk))

/-- Parameters of a `psycopg2.connect(...)` call: host, database, user and
optional password. -/
structure ConnParams where
  host : String
  database : String
  user : String
  password : Option String
deriving DecidableEq, Repr

/-- The administrative connection of `reset_postgres_password`:
`psycopg2.connect(host="localhost", database="postgres", user="postgres")`,
no password (valid only under the relaxed trust policy). -/
def adminParams : ConnParams :=
  { host := "localhost", database := "postgres", user := "postgres", password := none }

/-- The verification connection of `test_connection`:
`psycopg2.connect(host="localhost", database="postgres", user="postgres",
password="1")` — the new credential. -/
def verifyParams : ConnParams :=
  { host := "localhost", database := "postgres", user := "postgres", password := some "1" }

/-- Observable lifecycle events of a database connection. -/
inductive ConnEvent
  | connOpen
  | connClose
deriving DecidableEq, Repr

/-- Failure-injection oracle for `reset_postgres_password`: whether the
connect call and each SQL statement succeeds, and whether `testdb`
already exists (the `fetchone` result of the catalog query). -/
structure PwEnv where
  connect : ConnParams → Bool
  alterOk : Bool
  selectOk : Bool
  dbExists : Bool
  createOk : Bool

/-- `reset_postgres_password`: connect as the administrative principal
without a password, run `ALTER USER`, check for `testdb` and create it if
absent, then close cursor and connection and return `True`.  The whole body
is one `try`: any failing sub-step jumps to the `except` clause, which
returns `False` WITHOUT closing an already-opened connection (there is no
`finally` and no context manager in the source).  The event list records
every connection open/close that actually happened. -/
def reset_postgres_password (e : PwEnv) : Bool × List ConnEvent :=
  if e.connect adminParams = false then (false, [])
  else if e.alterOk = false then (false, [ConnEvent.connOpen])
  else if e.selectOk = false then (false, [ConnEvent.connOpen])
  else if e.dbExists = true then (true, [ConnEvent.connOpen, ConnEvent.connClose])
  else if e.createOk = false then (false, [ConnEvent.connOpen])
  else (true, [ConnEvent.connOpen, ConnEvent.connClose])

/-- Failure-injection oracle for `test_connection`: whether connecting with
a given credential succeeds, and whether `SELECT version()` returns a row. -/
structure VerifyEnv where
  connect : ConnParams → Bool
  queryOk : Bool

/-- `test_connection`: connect with the new credential (`postgres` / `1`),
run the identity query, close cursor and connection, return `True`.  As in
`reset_postgres_password`, a failure after a successful connect returns
`False` without closing the connection. -/
def test_connection (e : VerifyEnv) : Bool × List ConnEvent :=
  if e.connect verifyParams = false then (false, [])
  else if e.queryOk = false then (false, [ConnEvent.connOpen])
  else (true, [ConnEvent.connOpen, ConnEvent.connClose])

/-- On-disk state the workflow can touch: whether `find_postgres_data_dir`
finds a data directory on this host, the content of `pg_hba.conf`
(`none` = file absent) and the content of `pg_hba.conf.backup`. -/
structure FS where
  dataDirFound : Bool
  pgHba : Option String
  backup : Option String
deriving DecidableEq, Repr

/-- Failure-injection oracle for one `main` run.  One flag per
side-effecting call site, in workflow order.  `serviceFound` models
`find_postgres_service` succeeding (deterministic per host, so shared by
every stop/start). -/
structure Env where
  psycopg2Ok : Bool
  serviceFound : Bool
  stop1Ok : Bool
  backupOk : Bool
  relaxedWriteOk : Bool
  start1Ok : Bool
  pw : PwEnv
  rbStopOk : Bool
  restoreCopyOk : Bool
  rbStartOk : Bool
  stop2Ok : Bool
  secureWriteOk : Bool
  start2Ok : Bool
  vr : VerifyEnv

/-- `stop_postgres`: returns `False` when no service is found, otherwise
the outcome of the stop command.  `run_command` catches every exception,
so the result is always a plain boolean. -/
def stop_postgres (serviceFound cmdOk : Bool) : Bool :=
  if serviceFound = false then false else cmdOk

/-- `start_postgres`: same shape as `stop_postgres`. -/
def start_postgres (serviceFound cmdOk : Bool) : Bool :=
  if serviceFound = false then false else cmdOk

/-- `reset_postgres_auth`: locate the data directory, require
`pg_hba.conf` to exist, copy it to the backup path, then overwrite it with
the trust template.  A failed backup copy returns `False` before any write
to `pg_hba.conf`; a failed template write leaves the old content in place
(the source buffers the whole template in one `f.write`). -/
def reset_postgres_auth (backupOk relaxedWriteOk : Bool) (fs : FS) : Bool × FS :=
  if fs.dataDirFound = false then (false, fs)
  else
    match fs.pgHba with
    | none => (false, fs)
    | some c =>
        if backupOk = false then (false, fs)
        else
          let fs1 : FS := { fs with backup := some c }
          if relaxedWriteOk = false then (false, fs1)
          else (true, { fs1 with pgHba := some trust_config })

/-- `restore_postgres_auth`: locate the data directory, and if the backup
file exists copy it back over `pg_hba.conf`; returns `False` when there is
no data directory, no backup, or the copy fails. -/
def restore_postgres_auth (restoreCopyOk : Bool) (fs : FS) : Bool × FS :=
  if fs.dataDirFound = false then (false, fs)
  else
    match fs.backup with
    | none => (false, fs)
    | some b =>
        if restoreCopyOk = false then (false, fs)
        else (true, { fs with pgHba := some b })

/-- `create_secure_pg_hba`: locate the data directory and overwrite
`pg_hba.conf` with the secure template (no existence check: `open(..,"w")`
creates the file); a failed write leaves the old content in place. -/
def create_secure_pg_hba (secureWriteOk : Bool) (fs : FS) : Bool × FS :=
  if fs.dataDirFound = false then (false, fs)
  else if secureWriteOk = false then (false, fs)
  else (true, { fs with pgHba := some secure_config })

/-- Call sites of `main`, in the order they can appear in a run. -/
inductive Step
  | stop1
  | resetAuth
  | start1
  | resetPassword
  | rbStop
  | restore
  | rbStart
  | stop2
  | secure
  | start2
  | verify
deriving DecidableEq, Repr

/-- Outcome of one `main` run: the boolean `main` returns, the final
file-system state, and the trace of call sites that were executed. -/
structure RunOut where
  ok : Bool
  fs : FS
  trace : List Step
deriving Repr

/-- `main`, step for step:
1. require `psycopg2` (importable or installed on the fly);
2. `stop_postgres` — result only warned about, run continues either way;
3. `reset_postgres_auth` — on `False`, exit with failure (no rollback);
4. `start_postgres` — on `False`, exit with failure (NO rollback in the
   source: the relaxed policy stays on disk);
5. `reset_postgres_password` — on `False`, roll back: stop, restore,
   start, all best-effort, then exit with failure;
6. `stop_postgres`, `create_secure_pg_hba`, `start_postgres` — all three
   results are DISCARDED by the source;
7. `test_connection` — its result is `main`'s result. -/
def mainRun (env : Env) (fs0 : FS) : RunOut :=
  if env.psycopg2Ok = false then { ok := false, fs := fs0, trace := [] }
  else
    let _stop1 := stop_postgres env.serviceFound env.stop1Ok
    let ra := reset_postgres_auth env.backupOk env.relaxedWriteOk fs0
    if ra.1 = false then
      { ok := false, fs := ra.2, trace := [Step.stop1, Step.resetAuth] }
    else if start_postgres env.serviceFound env.start1Ok = false then
      { ok := false, fs := ra.2, trace := [Step.stop1, Step.resetAuth, Step.start1] }
    else if (reset_postgres_password env.pw).1 = false then
      let _rbStop := stop_postgres env.serviceFound env.rbStopOk
      let rr := restore_postgres_auth env.restoreCopyOk ra.2
      let _rbStart := start_postgres env.serviceFound env.rbStartOk
      { ok := false, fs := rr.2,
        trace := [Step.stop1, Step.resetAuth, Step.start1, Step.resetPassword,
                  Step.rbStop, Step.restore, Step.rbStart] }
    else
      let _stop2 := stop_postgres env.serviceFound env.stop2Ok
      let sc := create_secure_pg_hba env.secureWriteOk ra.2
      let _start2 := start_postgres env.serviceFound env.start2Ok
      { ok := (test_connection env.vr).1, fs := sc.2,
        trace := [Step.stop1, Step.resetAuth, Step.start1, Step.resetPassword,
                  Step.stop2, Step.secure, Step.start2, Step.verify] }

/-- `sys.exit(0 if success else 1)` in the `__main__` guard. -/
def exitCode (env : Env) (fs : FS) : Nat :=
  if (mainRun env fs).ok = true then 0 else 1

/-- A `PwEnv` in which every sub-step succeeds and `testdb` exists. -/
def allOkPw : PwEnv :=
  { connect := fun _ => true, alterOk := true, selectOk := true,
    dbExists := true, createOk := true }

/-- A `PwEnv` whose `ALTER USER` statement raises after a successful
connect. -/
def pwAlterFail : PwEnv := { allOkPw with alterOk := false }

/-- A `VerifyEnv` in which connect and query succeed. -/
def allOkVr : VerifyEnv := { connect := fun _ => true, queryOk := true }

/-- A `VerifyEnv` whose connect attempt is refused. -/
def vrConnFail : VerifyEnv := { connect := fun _ => false, queryOk := true }

/-- A `VerifyEnv` whose connect succeeds but whose identity query raises. -/
def vrQueryFail : VerifyEnv := { connect := fun _ => true, queryOk := false }

/-- An `Env` in which every operation succeeds. -/
def allOkEnv : Env :=
  { psycopg2Ok := true, serviceFound := true, stop1Ok := true,
    backupOk := true, relaxedWriteOk := true, start1Ok := true,
    pw := allOkPw, rbStopOk := true, restoreCopyOk := true,
    rbStartOk := true, stop2Ok := true, secureWriteOk := true,
    start2Ok := true, vr := allOkVr }

/-- A host with a data directory, an original `pg_hba.conf` holding the
content `"orig"`, and no backup yet. -/
def baseFS : FS := { dataDirFound := true, pgHba := some "orig", backup := none }

/-- Run in which the service start under the relaxed policy fails. -/
def c1Env : Env := { allOkEnv with start1Ok := false }

/-- Run in which the secure write and the verification both fail. -/
def c3Env : Env := { allOkEnv with secureWriteOk := false, vr := vrConnFail }

/-- Run in which the secure write fails but the verification succeeds. -/
def c4Env : Env := { allOkEnv with secureWriteOk := false }

/-- A data-directory probe accepting exactly `/var/lib/pgsql/data`. -/
def pgsqlOnlyProbe : String → Bool := fun s => s == "/var/lib/pgsql/data"

end PgReset

namespace PgReset

/-- The boolean `main` returns is the conjunction of the five gating
results; the discarded stop/secure/start results of step 5 and 6 do not
appear. -/
theorem mainRun_ok_eq (env : Env) (fs : FS) :
    (mainRun env fs).ok =
      (env.psycopg2Ok &&
       (reset_postgres_auth env.backupOk env.relaxedWriteOk fs).1 &&
       start_postgres env.serviceFound env.start1Ok &&
       (reset_postgres_password env.pw).1 &&
       (test_connection env.vr).1) := by
  cases hp : env.psycopg2Ok with
  | false => simp [mainRun, hp]
  | true =>
      cases hra : (reset_postgres_auth env.backupOk env.relaxedWriteOk fs).1 with
      | false => simp [mainRun, hp, hra]
      | true =>
          cases hs : start_postgres env.serviceFound env.start1Ok with
          | false => simp [mainRun, hp, hra, hs]
          | true =>
              cases hpw : (reset_postgres_password env.pw).1 with
              | false => simp [mainRun, hp, hra, hs, hpw]
              | true => simp [mainRun, hp, hra, hs, hpw]

/-- `test_connection` succeeds exactly when the connect with the new
credential and the identity query both succeed. -/
theorem test_connection_ok_iff (e : VerifyEnv) :
    (test_connection e).1 = true ↔
      (e.connect verifyParams = true ∧ e.queryOk = true) := by
  unfold test_connection
  cases hc : e.connect verifyParams <;> cases hq : e.queryOk <;> simp [hc, hq]

/-- If `find?` returns `none`, no element of the list satisfies the
predicate. -/
theorem find?_none_all_false {p : String → Bool} :
    ∀ {l : List String}, l.find? p = none → ∀ x ∈ l, p x = false := by
  intro l
  induction l with
  | nil => intro _ x hx; cases hx
  | cons b bs ih =>
      intro h x hx
      cases hpb : p b with
      | false =>
          have h' : bs.find? p = none := by simpa [List.find?, hpb] using h
          rw [List.mem_cons] at hx
          rcases hx with rfl | hx
          · exact hpb
          · exact ih h' x hx
      | true => simp [List.find?, hpb] at h

/-- If `find?` returns `some a`, then `a` is the first element satisfying
the predicate: the list splits as `l₁ ++ a :: l₂` with every element of
`l₁` failing the predicate. -/
theorem find?_some_first {p : String → Bool} :
    ∀ {l : List String} {a : String}, l.find? p = some a →
      ∃ l₁ l₂, l = l₁ ++ a :: l₂ ∧ p a = true ∧ ∀ x ∈ l₁, p x = false := by
  intro l
  induction l with
  | nil => intro a h; simp [List.find?] at h
  | cons b bs ih =>
      intro a h
      cases hpb : p b with
      | false =>
          have h' : bs.find? p = some a := by simpa [List.find?, hpb] using h
          obtain ⟨l₁, l₂, rfl, hpa, hall⟩ := ih h'
          refine ⟨b :: l₁, l₂, rfl, hpa, ?_⟩
          intro x hx
          rw [List.mem_cons] at hx
          rcases hx with rfl | hx
          · exact hpb
          · exact hall x hx
      | true =>
          have hab : b = a := by simpa [List.find?, hpb] using h
          subst hab
          exact ⟨[], bs, rfl, hpb, by intro x hx; cases hx⟩

set_option maxRecDepth 4000 in
/-- Claim C1, counterexample.  A run in which the relaxed policy was
successfully written and the service then fails to start under it —
a failure strictly before Securing — terminates WITHOUT attempting
restore, and leaves the trust template (not the backed-up content) on
disk.  `main` lines 304-306 `return False` with no call to
`restore_postgres_auth`. -/
theorem c1_counterexample :
    (mainRun c1Env baseFS).ok = false ∧
    Step.restore ∉ (mainRun c1Env baseFS).trace ∧
    (mainRun c1Env baseFS).fs.pgHba = some trust_config ∧
    (mainRun c1Env baseFS).fs.backup = some "orig" ∧
    ¬ trust_config = "orig" := by decide

/-- Claim C1 (amended): rollback happens only for a credential-change
failure.  For every run in which the relaxed policy was written and
`reset_postgres_password` then fails, the workflow attempts restore, and
when the restore copy succeeds the authentication-policy file at
termination equals the content captured by backup, byte-for-byte. -/
theorem c1_rollback_on_credential_failure (env : Env) (fs : FS) (c : String)
    (h1 : env.psycopg2Ok = true) (h2 : fs.dataDirFound = true)
    (h3 : fs.pgHba = some c) (h4 : env.backupOk = true)
    (h5 : env.relaxedWriteOk = true)
    (h6 : start_postgres env.serviceFound env.start1Ok = true)
    (h7 : (reset_postgres_password env.pw).1 = false) :
    Step.restore ∈ (mainRun env fs).trace ∧
    (env.restoreCopyOk = true → (mainRun env fs).fs.pgHba = some c) := by
  have hra : reset_postgres_auth env.backupOk env.relaxedWriteOk fs
      = (true, { fs with pgHba := some trust_config, backup := some c }) := by
    unfold reset_postgres_auth
    simp [h2, h3, h4, h5]
  constructor
  · simp [mainRun, h1, hra, h6, h7]
  · intro hr
    simp [mainRun, h1, hra, h6, h7, restore_postgres_auth, h2, hr]

/-- Claim C1, witness: concrete credential-change failure with a
successful restore copy ends with the original content back on disk. -/
theorem c1_witness :
    Step.restore ∈ (mainRun { allOkEnv with pw := pwAlterFail } baseFS).trace ∧
    (mainRun { allOkEnv with pw := pwAlterFail } baseFS).fs.pgHba = some "orig" := by
  have h := c1_rollback_on_credential_failure { allOkEnv with pw := pwAlterFail }
    baseFS "orig" (by decide) (by decide) (by decide) (by decide) (by decide)
    (by decide) (by decide)
  exact ⟨h.1, h.2 (by decide)⟩

/-- Claim C2: if the backup copy fails, the workflow aborts before any
write to the authentication-policy file — its content is unchanged — and
no restore is attempted. -/
theorem c2_no_premature_mutation (env : Env) (fs : FS)
    (h : env.backupOk = false) :
    (mainRun env fs).fs.pgHba = fs.pgHba ∧
    Step.restore ∉ (mainRun env fs).trace := by
  cases hp : env.psycopg2Ok with
  | false => simp [mainRun, hp]
  | true =>
      have hra : reset_postgres_auth env.backupOk env.relaxedWriteOk fs = (false, fs) := by
        unfold reset_postgres_auth
        cases hd : fs.dataDirFound <;> cases hh : fs.pgHba <;> simp [h, hd, hh]
      simp [mainRun, hp, hra]

/-- Claim C2, witness at a concrete failing-backup run. -/
theorem c2_witness :
    (mainRun { allOkEnv with backupOk := false } baseFS).fs.pgHba = baseFS.pgHba ∧
    Step.restore ∉ (mainRun { allOkEnv with backupOk := false } baseFS).trace :=
  c2_no_premature_mutation { allOkEnv with backupOk := false } baseFS (by decide)

set_option maxRecDepth 4000 in
/-- Claim C3, counterexample.  A run that reaches Securing, whose secure
write fails and whose verification then fails, terminates as a failure
with the RELAXED (trust) template still on disk: `main` line 323 discards
the result of `create_secure_pg_hba`, so "failure at or after Securing
ends with SecurePolicy on disk" does not hold when the Securing write
itself is the failure. -/
theorem c3_counterexample :
    c3Env.secureWriteOk = false ∧
    (mainRun c3Env baseFS).ok = false ∧
    (mainRun c3Env baseFS).fs.pgHba = some trust_config ∧
    ¬ trust_config = secure_config := by decide

/-- Claim C3 (amended): if the Securing write succeeds, then whatever
happens afterwards (start failure, verification failure), the final
on-disk policy is the SecurePolicy template — the workflow never rolls a
successful secure write back. -/
theorem c3_secure_final_policy (env : Env) (fs : FS) (c : String)
    (h1 : env.psycopg2Ok = true) (h2 : fs.dataDirFound = true)
    (h3 : fs.pgHba = some c) (h4 : env.backupOk = true)
    (h5 : env.relaxedWriteOk = true)
    (h6 : start_postgres env.serviceFound env.start1Ok = true)
    (h7 : (reset_postgres_password env.pw).1 = true)
    (h8 : env.secureWriteOk = true) :
    (mainRun env fs).fs.pgHba = some secure_config := by
  have hra : reset_postgres_auth env.backupOk env.relaxedWriteOk fs
      = (true, { fs with pgHba := some trust_config, backup := some c }) := by
    unfold reset_postgres_auth
    simp [h2, h3, h4, h5]
  simp [mainRun, h1, hra, h6, h7, create_secure_pg_hba, h2, h8]

/-- Claim C3, witness: concrete run failing only at verification ends
with the secure template on disk. -/
theorem c3_witness :
    (mainRun { allOkEnv with vr := vrQueryFail } baseFS).fs.pgHba
      = some secure_config :=
  c3_secure_final_policy { allOkEnv with vr := vrQueryFail } baseFS "orig"
    (by decide) (by decide) (by decide) (by decide) (by decide) (by decide)
    (by decide) (by decide)

/-- Claim C4, counterexample.  A run whose Securing write fails but whose
verification succeeds exits with code 0 and reports overall success: the
results of `stop_postgres`, `create_secure_pg_hba` and `start_postgres`
in step 5 are all discarded by `main`, so a late-phase write failure does
not force the Failed terminal state. -/
theorem c4_counterexample :
    c4Env.secureWriteOk = false ∧
    (mainRun c4Env baseFS).ok = true ∧
    exitCode c4Env baseFS = 0 := by decide

/-- Claim C4 (amended): among the late phases only verification decides
the outcome — the reported result is unchanged under any outcome of the
pre-secure stop, the Securing write and the post-secure start, and every
run whose verification fails exits with the nonzero code 1. -/
theorem c4_late_phase_reporting (env : Env) (fs : FS) (b₁ b₂ b₃ : Bool) :
    (mainRun { env with stop2Ok := b₁, secureWriteOk := b₂, start2Ok := b₃ } fs).ok
      = (mainRun env fs).ok ∧
    ((test_connection env.vr).1 = false → exitCode env fs = 1) := by
  constructor
  · rw [mainRun_ok_eq, mainRun_ok_eq]
  · intro h
    unfold exitCode
    rw [mainRun_ok_eq]
    simp [h]

/-- Claim C4, witness: a concrete run with a failing identity query exits
with code 1. -/
theorem c4_witness :
    exitCode { allOkEnv with vr := vrQueryFail } baseFS = 1 :=
  (c4_late_phase_reporting { allOkEnv with vr := vrQueryFail } baseFS
    true true true).2 (by decide)

/-- Claim C5: success gate.  A run reports success only if the
verification connect with the new credential (user `postgres`, password
`1`) and the identity query both succeeded (and then the exit code is 0);
and every run whose verification fails reports failure with exit code 1. -/
theorem c5_success_gate (env : Env) (fs : FS) :
    ((mainRun env fs).ok = true →
        env.vr.connect verifyParams = true ∧ env.vr.queryOk = true ∧
        exitCode env fs = 0) ∧
    ((test_connection env.vr).1 = false →
        (mainRun env fs).ok = false ∧ exitCode env fs = 1) := by
  constructor
  · intro h
    have htc : (test_connection env.vr).1 = true := by
      have h' := h
      rw [mainRun_ok_eq] at h'
      simp only [Bool.and_eq_true] at h'
      exact h'.2
    have h2 := (test_connection_ok_iff env.vr).1 htc
    exact ⟨h2.1, h2.2, by simp [exitCode, h]⟩
  · intro h
    have hko : (mainRun env fs).ok = false := by
      rw [mainRun_ok_eq]
      simp [h]
    exact ⟨hko, by simp [exitCode, hko]⟩

/-- Claim C5, witness: a concrete run whose verification connect is
refused reports failure and exits 1. -/
theorem c5_witness :
    (mainRun { allOkEnv with vr := vrConnFail } baseFS).ok = false ∧
    exitCode { allOkEnv with vr := vrConnFail } baseFS = 1 :=
  (c5_success_gate { allOkEnv with vr := vrConnFail } baseFS).2 (by decide)

/-- Claim C6: format fidelity.  A successful `reset_postgres_auth` writes
exactly the fixed trust template and a successful `create_secure_pg_hba`
writes exactly the fixed secure template, for every prior file-system
state (byte-for-byte reproducible); the trust template parses to exactly
the three trust records and the secure template to exactly the six md5
records (per principal `postgres` plus catch-all `all`, for local, IPv4
loopback and IPv6 loopback). -/
theorem c6_format_fidelity (fs fsb : FS) (c : String)
    (h1 : fs.dataDirFound = true) (h2 : fs.pgHba = some c)
    (h3 : fsb.dataDirFound = true) :
    (reset_postgres_auth true true fs).2.pgHba = some trust_config ∧
    (create_secure_pg_hba true fsb).2.pgHba = some secure_config ∧
    hbaRecords trust_config =
      [["local", "all", "all", "trust"],
       ["host", "all", "all", "127.0.0.1/32", "trust"],
       ["host", "all", "all", "::1/128", "trust"]] ∧
    hbaRecords secure_config =
      [["local", "all", "postgres", "md5"],
       ["local", "all", "all", "md5"],
       ["host", "all", "postgres", "127.0.0.1/32", "md5"],
       ["host", "all", "all", "127.0.0.1/32", "md5"],
       ["host", "all", "postgres", "::1/128", "md5"],
       ["host", "all", "all", "::1/128", "md5"]] := by
  refine ⟨?_, ?_, by decide, by decide⟩
  · unfold reset_postgres_auth
    simp [h1, h2]
  · unfold create_secure_pg_hba
    simp [h3]

/-- Claim C6, witness at the concrete base file system. -/
theorem c6_witness :
    (reset_postgres_auth true true baseFS).2.pgHba = some trust_config ∧
    (create_secure_pg_hba true baseFS).2.pgHba = some secure_config :=
  ⟨(c6_format_fidelity baseFS baseFS "orig" (by decide) (by decide) (by decide)).1,
   (c6_format_fidelity baseFS baseFS "orig" (by decide) (by decide) (by decide)).2.1⟩

/-- Claim C7: stop/start failure semantics.  The result of the initial
stop is discarded — the whole run is unchanged under any outcome of that
stop — while a failed start right after the relaxed configuration was
written is fatal: the run reports failure and the credential-change step
is never executed. -/
theorem c7_stop_start_semantics :
    (∀ (env : Env) (fs : FS) (b : Bool),
        mainRun { env with stop1Ok := b } fs = mainRun env fs) ∧
    (∀ (env : Env) (fs : FS), env.start1Ok = false →
        (mainRun env fs).ok = false ∧
        Step.resetPassword ∉ (mainRun env fs).trace) := by
  constructor
  · intro env fs b
    cases env
    rfl
  · intro env fs h
    have hs : start_postgres env.serviceFound env.start1Ok = false := by
      unfold start_postgres
      cases hsf : env.serviceFound <;> simp [h, hsf]
    cases hp : env.psycopg2Ok with
    | false => simp [mainRun, hp]
    | true =>
        cases hra : (reset_postgres_auth env.backupOk env.relaxedWriteOk fs).1 with
        | false =>
            constructor
            · simp [mainRun, hp, hra]
            · simp [mainRun, hp, hra]
        | true =>
            constructor
            · simp [mainRun, hp, hra, hs]
            · simp [mainRun, hp, hra, hs]

/-- Claim C7, witness: concrete stop-failure run equals the all-success
run, and a concrete start-failure run fails without a credential change. -/
theorem c7_witness :
    mainRun { allOkEnv with stop1Ok := false } baseFS = mainRun allOkEnv baseFS ∧
    (mainRun { allOkEnv with start1Ok := false } baseFS).ok = false ∧
    Step.resetPassword ∉ (mainRun { allOkEnv with start1Ok := false } baseFS).trace :=
  ⟨c7_stop_start_semantics.1 allOkEnv baseFS false,
   c7_stop_start_semantics.2 { allOkEnv with start1Ok := false } baseFS (by decide)⟩

/-- Claim C8, counterexample.  On a linux host `find_postgres_service`
returns the fixed name `postgresql` without running any existence probe:
even under a probe that rejects every candidate it does not return the
not-found value `none`, contradicting the first-match contract claimed
for every host environment. -/
theorem c8_counterexample :
    find_postgres_service Platform.linux (fun _ => false) = some "postgresql" ∧
    find_postgres_service Platform.linux (fun _ => false) ≠ none := by
  constructor
  · rfl
  · intro h
    cases h

/-- Claim C8 (amended): the data-directory locator obeys the first-match
contract on every platform (first existing candidate, `none` when no
candidate exists), and the service locator obeys it on Windows; on linux
and darwin the service name is the fixed `postgresql`, returned without
probing, and on unknown platforms it is `none`. -/
theorem c8_locator_first_match :
    (∀ (p : Platform) (ex : String → Bool),
        (find_postgres_data_dir p ex = none → ∀ d ∈ commonPaths p, ex d = false) ∧
        (∀ d, find_postgres_data_dir p ex = some d →
            ∃ l₁ l₂, commonPaths p = l₁ ++ d :: l₂ ∧ ex d = true ∧
              ∀ x ∈ l₁, ex x = false)) ∧
    (∀ sc : String → Bool,
        (find_postgres_service Platform.windows sc = none →
            ∀ s ∈ windowsServices, sc s = false) ∧
        (∀ s, find_postgres_service Platform.windows sc = some s →
            ∃ l₁ l₂, windowsServices = l₁ ++ s :: l₂ ∧ sc s = true ∧
              ∀ x ∈ l₁, sc x = false)) ∧
    (∀ sc : String → Bool,
        find_postgres_service Platform.linux sc = some "postgresql" ∧
        find_postgres_service Platform.darwin sc = some "postgresql" ∧
        find_postgres_service Platform.other sc = none) := by
  refine ⟨?_, ?_, ?_⟩
  · intro p ex
    exact ⟨fun h => find?_none_all_false h, fun d h => find?_some_first h⟩
  · intro sc
    exact ⟨fun h => find?_none_all_false h, fun s h => find?_some_first h⟩
  · intro sc
    exact ⟨rfl, rfl, rfl⟩

/-- Claim C8, witness: under a probe accepting exactly the second linux
candidate, the data-directory locator returns it and the split certifies
that the first candidate was probed and rejected. -/
theorem c8_witness :
    ∃ l₁ l₂, commonPaths Platform.linux = l₁ ++ "/var/lib/pgsql/data" :: l₂ ∧
      pgsqlOnlyProbe "/var/lib/pgsql/data" = true ∧
      ∀ x ∈ l₁, pgsqlOnlyProbe x = false :=
  ((c8_locator_first_match.1 Platform.linux pgsqlOnlyProbe).2
    "/var/lib/pgsql/data" (by decide))

/-- Claim C9, counterexample.  When the administrative connect succeeds
and the `ALTER USER` statement then raises, `reset_postgres_password`
returns failure with the connection it opened still open: the `except`
clause returns without closing, as there is no `finally` or context
manager in the source.  The claim that every connection is closed on
every exit path is therefore false. -/
theorem c9_counterexample :
    (reset_postgres_password pwAlterFail).1 = false ∧
    (reset_postgres_password pwAlterFail).2 = [ConnEvent.connOpen] ∧
    ConnEvent.connClose ∉ (reset_postgres_password pwAlterFail).2 := by decide

/-- Claim C9 (amended): connections are closed on the success paths of
both steps, and no connection is opened when the connect itself fails;
but on the exception path after a successful connect — including a failed
identity query during verification — the step terminates with its
connection still open. -/
theorem c9_connection_scoping (e : PwEnv) (v : VerifyEnv) :
    ((reset_postgres_password e).1 = true →
        (reset_postgres_password e).2 = [ConnEvent.connOpen, ConnEvent.connClose]) ∧
    (e.connect adminParams = false → (reset_postgres_password e).2 = []) ∧
    ((test_connection v).1 = true →
        (test_connection v).2 = [ConnEvent.connOpen, ConnEvent.connClose]) ∧
    (v.connect verifyParams = false → (test_connection v).2 = []) ∧
    (v.connect verifyParams = true → v.queryOk = false →
        (test_connection v).2 = [ConnEvent.connOpen]) := by
  refine ⟨?_, ?_, ?_, ?_, ?_⟩
  · intro h
    unfold reset_postgres_password at h ⊢
    cases hc : e.connect adminParams <;>
      cases ha : e.alterOk <;>
      cases hs : e.selectOk <;>
      cases hd : e.dbExists <;>
      cases hcr : e.createOk <;>
      simp [hc, ha, hs, hd, hcr] at h ⊢
  · intro h
    unfold reset_postgres_password
    simp [h]
  · intro h
    unfold test_connection at h ⊢
    cases hc : v.connect verifyParams <;> cases hq : v.queryOk <;>
      simp [hc, hq] at h ⊢
  · intro h
    unfold test_connection
    simp [h]
  · intro h1 h2
    unfold test_connection
    simp [h1, h2]

/-- Claim C9, witness: on the all-success run both steps close what they
opened, and a refused verification connect opens nothing. -/
theorem c9_witness :
    (reset_postgres_password allOkPw).2 = [ConnEvent.connOpen, ConnEvent.connClose] ∧
    (test_connection vrConnFail).2 = [] :=
  ⟨(c9_connection_scoping allOkPw allOkVr).1 (by decide),
   (c9_connection_scoping allOkPw vrConnFail).2.2.2.1 (by decide)⟩

/-- Claim C10: backup persistence.  Once the backup copy has succeeded,
no later step of any run writes to or removes the backup path: at
termination the backup file still holds the pre-relaxation content, on
the success path and on every failure path. -/
theorem c10_backup_persistence (env : Env) (fs : FS) (c : String)
    (h1 : env.psycopg2Ok = true) (h2 : fs.dataDirFound = true)
    (h3 : fs.pgHba = some c) (h4 : env.backupOk = true) :
    (mainRun env fs).fs.backup = some c := by
  cases hw : env.relaxedWriteOk with
  | false =>
      simp [mainRun, h1, reset_postgres_auth, h2, h3, h4, hw]
  | true =>
      have hra : reset_postgres_auth env.backupOk env.relaxedWriteOk fs
          = (true, { fs with pgHba := some trust_config, backup := some c }) := by
        unfold reset_postgres_auth
        simp [h2, h3, h4, hw]
      cases hs : start_postgres env.serviceFound env.start1Ok with
      | false => simp [mainRun, h1, hra, hs]
      | true =>
          cases hpw : (reset_postgres_password env.pw).1 with
          | false =>
              cases hr : env.restoreCopyOk with
              | false =>
                  simp [mainRun, h1, hra, hs, hpw, restore_postgres_auth, h2, hr]
              | true =>
                  simp [mainRun, h1, hra, hs, hpw, restore_postgres_auth, h2, hr]
          | true =>
              cases hsw : env.secureWriteOk with
              | false =>
                  simp [mainRun, h1, hra, hs, hpw, create_secure_pg_hba, h2, hsw]
              | true =>
                  simp [mainRun, h1, hra, hs, hpw, create_secure_pg_hba, h2, hsw]

/-- Claim C10, witness: after a full successful run the backup file still
holds the original content. -/
theorem c10_witness :
    (mainRun allOkEnv baseFS).fs.backup = some "orig" :=
  c10_backup_persistence allOkEnv baseFS "orig" (by decide) (by decide)
    (by decide) (by decide)

end PgReset
